import Mathlib

set_option maxRecDepth 8000

/-
Shallow embedding of byteps/_keras/__init__.py (the BytePS Keras distributed
optimizer wrapper).  Tensors and the external collective client are modelled
as a free term algebra: each external primitive returns a fresh syntactic node
recording its arguments, so equalities between outputs reflect exactly which
calls were made with which arguments.  Each aggregation function additionally
returns the list of collective calls it issues, in issue order.
-/

namespace BytePSKeras

/-- Abstract tensors.  A `base` tensor carries an identifier and a flag
recording whether it is a `tf.IndexedSlices` (sparse) value; the remaining
constructors are the opaque results of the external primitives the core
invokes: `tf.convert_to_tensor`, synchronous `bps.push_pull`, the tensor
component of `push_pull_xla_handle_out_v2`, `_sync_tensors_handle_out_v2`,
and `compression.decompress`. -/
inductive Tensor : Type where
  | base : Nat → Bool → Tensor
  | denseOf : Tensor → Tensor
  | pushPullResult : Tensor → Tensor
  | asyncResult : Tensor → Nat → Tensor
  | syncedResult : Tensor → List Nat → Nat → Nat → Tensor
  | decompressed : Tensor → Nat → Tensor
  deriving DecidableEq, Repr

/-- `isinstance(grad, tf.IndexedSlices)`: only a base tensor tagged as
indexed slices is sparse; every primitive result is a dense tensor. -/
def Tensor.isIndexedSlices : Tensor → Bool
  | Tensor.base _ s => s
  | _ => false

/-- `tf.convert_to_tensor`: densification of an indexed-slices value. -/
def convert_to_tensor (t : Tensor) : Tensor := Tensor.denseOf t

/-- Synchronous `bps.push_pull`: returns the cross-worker averaged tensor
(opaque result of the external collective client). -/
def push_pull (grad : Tensor) : Tensor := Tensor.pushPullResult grad

/-- The 4-tuple returned by `push_pull_xla_handle_out_v2`:
(result tensor, result name, async op handle, compression context). -/
structure AsyncTuple : Type where
  avg_grad : Tensor
  grad_name : Nat
  handle : Nat
  ctx : Nat
  deriving DecidableEq, Repr

/-- `push_pull_xla_handle_out_v2(grad, scope, ..., idx=idx)`: issues one
asynchronous push-pull.  Name, handle and context are opaque per-call tokens;
they are modelled by the positional index the call was issued with, which is
the datum the correlation contract is about. -/
def push_pull_xla_handle_out_v2 (grad : Tensor) (idx : Nat) : AsyncTuple :=
  { avg_grad := Tensor.asyncResult grad idx, grad_name := idx, handle := idx, ctx := idx }

/-- `_my_barrier_handle_out(handles)`: the barrier handle covering a group of
async op handles, modelled as the (opaque) group itself. -/
def _my_barrier_handle_out (handles : List Nat) : List Nat := handles

/-- `_sync_tensors_handle_out_v2(tensor, barrier_handle, tensor_name, idx)`:
binds a result tensor to the barrier handle under its correlation name. -/
def _sync_tensors_handle_out_v2 (tensor : Tensor) (barrier_handle : List Nat)
    (tensor_name : Nat) (idx : Nat) : Tensor :=
  Tensor.syncedResult tensor barrier_handle tensor_name idx

/-- `compression.decompress(tensor, ctx)`. -/
def decompress (t : Tensor) (ctx : Nat) : Tensor := Tensor.decompressed t ctx

/-- One collective-client call, as recorded in a trace. -/
inductive CollectiveCall : Type where
  | syncPushPull : Tensor → CollectiveCall
  | asyncPushPull : Tensor → Nat → CollectiveCall
  | barrierCall : List Nat → CollectiveCall
  | bindToBarrier : Tensor → List Nat → Nat → Nat → CollectiveCall
  | decompressCall : Tensor → Nat → CollectiveCall
  deriving DecidableEq, Repr

/-- Python runtime errors the accelerated path can raise:
`TypeError` from `zip(*lst)` when `lst` contains `None`, and `IndexError`
from indexing the transposed result of an empty list. -/
inductive PyError : Type where
  | typeError : PyError
  | indexError : PyError
  deriving DecidableEq, Repr

/-- Static configuration visible to the wrapper: `bps.size()` (worker-group
size), the `sparse_as_dense` flag, and the `BYTEPS_ENABLE_XLA` mode flag. -/
structure Config : Type where
  size : Nat
  sparse_as_dense : Bool
  enable_xla : Bool
  deriving DecidableEq, Repr

/-- Mutable wrapper state: the `_aggregated_gradients` sentinel. -/
structure OptState : Type where
  aggregated_gradients : Bool
  deriving DecidableEq, Repr

/-- `__init__`: `self._aggregated_gradients = False`. -/
def init_state : OptState := { aggregated_gradients := false }

/-- Body of the `for grad in gradients` loop of `_push_pull_tf` (the
worker-group size > 1 branch): for each non-`None` gradient, optionally
densify, issue a synchronous push-pull and append its result; `None`
gradients are appended unchanged.  Returns (trace, averaged_gradients). -/
def pushPullTfLoop (sad : Bool) : List (Option Tensor) → List CollectiveCall × List (Option Tensor)
  | [] => ([], [])
  | none :: rest =>
    let r := pushPullTfLoop sad rest
    (r.1, none :: r.2)
  | some grad :: rest =>
    let g := if sad && grad.isIndexedSlices then convert_to_tensor grad else grad
    let r := pushPullTfLoop sad rest
    (CollectiveCall.syncPushPull g :: r.1, some (push_pull g) :: r.2)

/-- `_push_pull_tf`: sets `_aggregated_gradients`, then either runs the
synchronous per-tensor loop (size > 1) or returns the input unchanged. -/
def _push_pull_tf (cfg : Config) (st : OptState) (gradients : List (Option Tensor)) :
    OptState × List CollectiveCall × List (Option Tensor) :=
  ({ st with aggregated_gradients := true },
   if cfg.size > 1 then pushPullTfLoop cfg.sparse_as_dense gradients
   else ([], gradients))

/-- Lines 88-91 of `_push_pull_xla`: when `sparse_as_dense` is set, densify
every non-`None` indexed-slices gradient; otherwise leave the list alone. -/
def densifyList (sad : Bool) (grads : List (Option Tensor)) : List (Option Tensor) :=
  if sad then
    grads.map (fun g => match g with
      | some grad => some (if grad.isIndexedSlices then convert_to_tensor grad else grad)
      | none => none)
  else grads

/-- The list comprehension of lines 92-98: for `idx, grad` in
`enumerate(grads, 1)`, the async 4-tuple for non-`None` gradients and `None`
otherwise. -/
def xlaTuples : Nat → List (Option Tensor) → List (Option AsyncTuple)
  | _, [] => []
  | idx, g? :: rest =>
    (g?.map (fun grad => push_pull_xla_handle_out_v2 grad idx)) :: xlaTuples (idx + 1) rest

/-- The collective calls issued by that same comprehension, in issue order:
one `asyncPushPull` per non-`None` gradient at its 1-based original index. -/
def xlaIssueCalls : Nat → List (Option Tensor) → List CollectiveCall
  | _, [] => []
  | idx, none :: rest => xlaIssueCalls (idx + 1) rest
  | idx, some grad :: rest => CollectiveCall.asyncPushPull grad idx :: xlaIssueCalls (idx + 1) rest

/-- `list(zip(*new_grads_names_and_handles_and_ctxes))` followed by the four
`[0]`..`[3]` column reads (lines 101-106).  `zip(*lst)` raises `TypeError`
when some element is `None` (not iterable); indexing the transpose of an
empty list raises `IndexError`; otherwise the four columns come back. -/
def zipStar4 (xs : List (Option AsyncTuple)) :
    Except PyError (List Tensor × List Nat × List Nat × List Nat) :=
  if xs.any (fun x => x.isNone) then Except.error PyError.typeError
  else if (xs.filterMap id).isEmpty then Except.error PyError.indexError
  else Except.ok ((xs.filterMap id).map AsyncTuple.avg_grad,
                  (xs.filterMap id).map AsyncTuple.grad_name,
                  (xs.filterMap id).map AsyncTuple.handle,
                  (xs.filterMap id).map AsyncTuple.ctx)

/-- Line 109: `enumerate(zip(avg_grads, grad_names), 1)` mapped through
`_sync_tensors_handle_out_v2` - the bound-to-barrier result tensors. -/
def xlaSyncedList (bh : List Nat) : Nat → List (Tensor × Nat) → List Tensor
  | _, [] => []
  | idx, p :: rest => _sync_tensors_handle_out_v2 p.1 bh p.2 idx :: xlaSyncedList bh (idx + 1) rest

/-- The bind-to-barrier calls issued by line 109, in issue order. -/
def xlaBindCalls (bh : List Nat) : Nat → List (Tensor × Nat) → List CollectiveCall
  | _, [] => []
  | idx, p :: rest => CollectiveCall.bindToBarrier p.1 bh p.2 idx :: xlaBindCalls bh (idx + 1) rest

/-- Lines 87-111 of `_push_pull_xla` after the fast-path return: densify,
issue one async push-pull per non-`None` gradient via `enumerate(grads, 1)`,
transpose the tuple list (which raises on `None` entries or an empty list),
form the single barrier over all handles, bind every result tensor to it,
and decompress each bound tensor with its paired context.
Returns (trace of collective calls, result or raised error). -/
def push_pull_xla_body (cfg : Config) (grads0 : List (Option Tensor)) :
    List CollectiveCall × Except PyError (List (Option Tensor)) :=
  match zipStar4 (xlaTuples 1 (densifyList cfg.sparse_as_dense grads0)) with
  | Except.error e =>
    (xlaIssueCalls 1 (densifyList cfg.sparse_as_dense grads0), Except.error e)
  | Except.ok (avg_grads, grad_names, handles, ctxes) =>
    (xlaIssueCalls 1 (densifyList cfg.sparse_as_dense grads0)
      ++ CollectiveCall.barrierCall (_my_barrier_handle_out handles)
      :: (xlaBindCalls (_my_barrier_handle_out handles) 1 (avg_grads.zip grad_names)
          ++ ((xlaSyncedList (_my_barrier_handle_out handles) 1 (avg_grads.zip grad_names)).zip ctxes).map
              (fun p => CollectiveCall.decompressCall p.1 p.2)),
     Except.ok ((((xlaSyncedList (_my_barrier_handle_out handles) 1 (avg_grads.zip grad_names)).zip ctxes).map
        (fun p => decompress p.1 p.2)).map some))

/-- `_push_pull_xla`: sets `_aggregated_gradients`, then either returns the
input unchanged (size <= 1) or runs the accelerated protocol. -/
def _push_pull_xla (cfg : Config) (st : OptState) (grads : List (Option Tensor)) :
    OptState × List CollectiveCall × Except PyError (List (Option Tensor)) :=
  ({ st with aggregated_gradients := true },
   if cfg.size ≤ 1 then ([], Except.ok grads)
   else push_pull_xla_body cfg grads)

/-- `self._push_pull`: the bound method selected at construction from
`enable_xla`.  The direct path never raises, so its result is wrapped in
`Except.ok` to share a type with the accelerated path. -/
def push_pull_dispatch (cfg : Config) (st : OptState) (grads : List (Option Tensor)) :
    OptState × List CollectiveCall × Except PyError (List (Option Tensor)) :=
  if cfg.enable_xla then _push_pull_xla cfg st grads
  else
    let r := _push_pull_tf cfg st grads
    (r.1, r.2.1, Except.ok r.2.2)

/-- `get_gradients`: computes the raw gradients (supplied here as input, the
superclass call being external) and feeds them to `self._push_pull`. -/
def get_gradients (cfg : Config) (st : OptState) (gradients : List (Option Tensor)) :
    OptState × List CollectiveCall × Except PyError (List (Option Tensor)) :=
  push_pull_dispatch cfg st gradients

/-- `_aggregate_gradients`: strips the variables off the (grad, var) pairs
and feeds the gradients to `self._push_pull`. -/
def _aggregate_gradients (cfg : Config) (st : OptState)
    (grads_and_vars : List (Option Tensor × Nat)) :
    OptState × List CollectiveCall × Except PyError (List (Option Tensor)) :=
  push_pull_dispatch cfg st (grads_and_vars.map Prod.fst)

/-- The exception message raised by `apply_gradients` when no aggregation
call has occurred. -/
def apply_gradients_error_msg : String :=
  "apply_gradients() was called without a call to get_gradients() or _aggregate_gradients. If you are using TensorFlow 2.0, please specify experimental_run_tf_function=False in compile()."

/-- `apply_gradients`: raises unless `_aggregated_gradients` is set,
otherwise delegates to the superclass update step (modelled as `ok`). -/
def apply_gradients (st : OptState) : Except String Unit :=
  if !st.aggregated_gradients then Except.error apply_gradients_error_msg
  else Except.ok ()

/-- The operations a caller can perform on one wrapper instance after
construction (used to state lifetime properties of the sentinel). -/
inductive WrapperOp : Type where
  | getGradientsOp : List (Option Tensor) → WrapperOp
  | aggregateGradientsOp : List (Option Tensor × Nat) → WrapperOp
  | applyGradientsOp : WrapperOp

/-- State transition of the wrapper under one operation
(`apply_gradients` never writes the sentinel). -/
def stepState (cfg : Config) (st : OptState) : WrapperOp → OptState
  | WrapperOp.getGradientsOp gs => (get_gradients cfg st gs).1
  | WrapperOp.aggregateGradientsOp gvs => (_aggregate_gradients cfg st gvs).1
  | WrapperOp.applyGradientsOp => st

/-- The per-gradient transformation performed before a collective call:
densify exactly when the `sparse_as_dense` flag is set and the gradient is in
indexed-slices form. -/
def densify (sad : Bool) (grad : Tensor) : Tensor :=
  if sad && grad.isIndexedSlices then convert_to_tensor grad else grad

/-- The tensors handed to synchronous push-pull calls of a trace, in order. -/
def syncGrads : List CollectiveCall → List Tensor
  | [] => []
  | CollectiveCall.syncPushPull t :: tr => t :: syncGrads tr
  | _ :: tr => syncGrads tr

/-- The tensors handed to asynchronous push-pull calls of a trace, in order. -/
def asyncGrads : List CollectiveCall → List Tensor
  | [] => []
  | CollectiveCall.asyncPushPull t _ :: tr => t :: asyncGrads tr
  | _ :: tr => asyncGrads tr

/-- The positional indices passed to asynchronous push-pull calls, in order. -/
def asyncIdxs : List CollectiveCall → List Nat
  | [] => []
  | CollectiveCall.asyncPushPull _ idx :: tr => idx :: asyncIdxs tr
  | _ :: tr => asyncIdxs tr

/-- The positional indices passed to bind-to-barrier calls, in order. -/
def bindIdxs : List CollectiveCall → List Nat
  | [] => []
  | CollectiveCall.bindToBarrier _ _ _ idx :: tr => idx :: bindIdxs tr
  | _ :: tr => bindIdxs tr

/-- The correlation names passed to bind-to-barrier calls, in order. -/
def bindNames : List CollectiveCall → List Nat
  | [] => []
  | CollectiveCall.bindToBarrier _ _ nm _ :: tr => nm :: bindNames tr
  | _ :: tr => bindNames tr

/-- The handle groups passed to barrier calls, in order. -/
def barrierArgs : List CollectiveCall → List (List Nat)
  | [] => []
  | CollectiveCall.barrierCall hs :: tr => hs :: barrierArgs tr
  | _ :: tr => barrierArgs tr

/-- Whether a call is a barrier invocation. -/
def isBarrierCall : CollectiveCall → Bool
  | CollectiveCall.barrierCall _ => true
  | _ => false

/-- The 1-based positions (counting from `i`) of the non-`None` entries of a
gradient list, in list order. -/
def nonNonePositionsFrom : Nat → List (Option Tensor) → List Nat
  | _, [] => []
  | i, none :: rest => nonNonePositionsFrom (i + 1) rest
  | i, some _ :: rest => i :: nonNonePositionsFrom (i + 1) rest

/-- The consecutive indices `[i, i+1, ..., i+n-1]`. -/
def posRange : Nat → Nat → List Nat
  | _, 0 => []
  | i, n + 1 => i :: posRange (i + 1) n

/-- The async tuples issued for an all-non-`None` gradient segment starting
at index `i`. -/
def tuplesOf : Nat → List Tensor → List AsyncTuple
  | _, [] => []
  | i, t :: ts => push_pull_xla_handle_out_v2 t i :: tuplesOf (i + 1) ts

/-- Whether an accelerated-mode run returned normally (rather than raising). -/
def isOkResult : Except PyError (List (Option Tensor)) → Bool
  | Except.ok _ => true
  | Except.error _ => false

theorem asyncIdxs_xlaIssueCalls (grads : List (Option Tensor)) :
    ∀ i, asyncIdxs (xlaIssueCalls i grads) = nonNonePositionsFrom i grads := by
  induction grads with
  | nil => intro i; rfl
  | cons g rest ih =>
    intro i
    cases g <;> simp [xlaIssueCalls, nonNonePositionsFrom, asyncIdxs, ih (i + 1)]

theorem asyncGrads_xlaIssueCalls (grads : List (Option Tensor)) :
    ∀ i, asyncGrads (xlaIssueCalls i grads) = grads.filterMap id := by
  induction grads with
  | nil => intro i; rfl
  | cons g rest ih =>
    intro i
    cases g <;> simp [xlaIssueCalls, asyncGrads, List.filterMap_cons, ih (i + 1)]

theorem bindIdxs_xlaIssueCalls (grads : List (Option Tensor)) :
    ∀ i, bindIdxs (xlaIssueCalls i grads) = [] := by
  induction grads with
  | nil => intro i; rfl
  | cons g rest ih =>
    intro i
    cases g <;> simp [xlaIssueCalls, bindIdxs, ih (i + 1)]

theorem bindNames_xlaIssueCalls (grads : List (Option Tensor)) :
    ∀ i, bindNames (xlaIssueCalls i grads) = [] := by
  induction grads with
  | nil => intro i; rfl
  | cons g rest ih =>
    intro i
    cases g <;> simp [xlaIssueCalls, bindNames, ih (i + 1)]

theorem barrierArgs_xlaIssueCalls (grads : List (Option Tensor)) :
    ∀ i, barrierArgs (xlaIssueCalls i grads) = [] := by
  induction grads with
  | nil => intro i; rfl
  | cons g rest ih =>
    intro i
    cases g <;> simp [xlaIssueCalls, barrierArgs, ih (i + 1)]

theorem not_isBarrierCall_xlaIssueCalls (grads : List (Option Tensor)) :
    ∀ i c, c ∈ xlaIssueCalls i grads → (!(isBarrierCall c)) = true := by
  induction grads with
  | nil => intro i c hc; simp [xlaIssueCalls] at hc
  | cons g rest ih =>
    intro i c hc
    cases g with
    | none => exact ih (i + 1) c hc
    | some t =>
      simp only [xlaIssueCalls, List.mem_cons] at hc
      rcases hc with hc | hc
      · subst hc; rfl
      · exact ih (i + 1) c hc

theorem asyncIdxs_append (a b : List CollectiveCall) :
    asyncIdxs (a ++ b) = asyncIdxs a ++ asyncIdxs b := by
  induction a with
  | nil => rfl
  | cons c a ih => cases c <;> simp [asyncIdxs, ih]

theorem asyncGrads_append (a b : List CollectiveCall) :
    asyncGrads (a ++ b) = asyncGrads a ++ asyncGrads b := by
  induction a with
  | nil => rfl
  | cons c a ih => cases c <;> simp [asyncGrads, ih]

theorem bindIdxs_append (a b : List CollectiveCall) :
    bindIdxs (a ++ b) = bindIdxs a ++ bindIdxs b := by
  induction a with
  | nil => rfl
  | cons c a ih => cases c <;> simp [bindIdxs, ih]

theorem bindNames_append (a b : List CollectiveCall) :
    bindNames (a ++ b) = bindNames a ++ bindNames b := by
  induction a with
  | nil => rfl
  | cons c a ih => cases c <;> simp [bindNames, ih]

theorem barrierArgs_append (a b : List CollectiveCall) :
    barrierArgs (a ++ b) = barrierArgs a ++ barrierArgs b := by
  induction a with
  | nil => rfl
  | cons c a ih => cases c <;> simp [barrierArgs, ih]

theorem asyncIdxs_xlaBindCalls (bh : List Nat) (ps : List (Tensor × Nat)) :
    ∀ i, asyncIdxs (xlaBindCalls bh i ps) = [] := by
  induction ps with
  | nil => intro i; rfl
  | cons p ps ih => intro i; simp [xlaBindCalls, asyncIdxs, ih (i + 1)]

theorem asyncGrads_xlaBindCalls (bh : List Nat) (ps : List (Tensor × Nat)) :
    ∀ i, asyncGrads (xlaBindCalls bh i ps) = [] := by
  induction ps with
  | nil => intro i; rfl
  | cons p ps ih => intro i; simp [xlaBindCalls, asyncGrads, ih (i + 1)]

theorem barrierArgs_xlaBindCalls (bh : List Nat) (ps : List (Tensor × Nat)) :
    ∀ i, barrierArgs (xlaBindCalls bh i ps) = [] := by
  induction ps with
  | nil => intro i; rfl
  | cons p ps ih => intro i; simp [xlaBindCalls, barrierArgs, ih (i + 1)]

theorem bindIdxs_xlaBindCalls (bh : List Nat) (ps : List (Tensor × Nat)) :
    ∀ i, bindIdxs (xlaBindCalls bh i ps) = posRange i ps.length := by
  induction ps with
  | nil => intro i; rfl
  | cons p ps ih => intro i; simp [xlaBindCalls, bindIdxs, posRange, ih (i + 1)]

theorem bindNames_xlaBindCalls (bh : List Nat) (ps : List (Tensor × Nat)) :
    ∀ i, bindNames (xlaBindCalls bh i ps) = ps.map Prod.snd := by
  induction ps with
  | nil => intro i; rfl
  | cons p ps ih => intro i; simp [xlaBindCalls, bindNames, ih (i + 1)]

theorem asyncIdxs_decompressMap (l : List (Tensor × Nat)) :
    asyncIdxs (l.map (fun p => CollectiveCall.decompressCall p.1 p.2)) = [] := by
  induction l with
  | nil => rfl
  | cons p l ih => simp [asyncIdxs, ih]

theorem asyncGrads_decompressMap (l : List (Tensor × Nat)) :
    asyncGrads (l.map (fun p => CollectiveCall.decompressCall p.1 p.2)) = [] := by
  induction l with
  | nil => rfl
  | cons p l ih => simp [asyncGrads, ih]

theorem bindIdxs_decompressMap (l : List (Tensor × Nat)) :
    bindIdxs (l.map (fun p => CollectiveCall.decompressCall p.1 p.2)) = [] := by
  induction l with
  | nil => rfl
  | cons p l ih => simp [bindIdxs, ih]

theorem bindNames_decompressMap (l : List (Tensor × Nat)) :
    bindNames (l.map (fun p => CollectiveCall.decompressCall p.1 p.2)) = [] := by
  induction l with
  | nil => rfl
  | cons p l ih => simp [bindNames, ih]

theorem barrierArgs_decompressMap (l : List (Tensor × Nat)) :
    barrierArgs (l.map (fun p => CollectiveCall.decompressCall p.1 p.2)) = [] := by
  induction l with
  | nil => rfl
  | cons p l ih => simp [barrierArgs, ih]

theorem posRange_length (n : Nat) : ∀ i, (posRange i n).length = n := by
  induction n with
  | zero => intro i; rfl
  | succ n ih => intro i; simp [posRange, ih (i + 1)]

theorem posRange_lb (n : Nat) : ∀ i j, j ∈ posRange i n → i ≤ j := by
  induction n with
  | zero => intro i j h; simp [posRange] at h
  | succ n ih =>
    intro i j h
    simp only [posRange, List.mem_cons] at h
    rcases h with h | h
    · omega
    · have := ih (i + 1) j h; omega

theorem posRange_pairwise_lt (n : Nat) : ∀ i, List.Pairwise (fun a b => a < b) (posRange i n) := by
  induction n with
  | zero => intro i; exact List.Pairwise.nil
  | succ n ih =>
    intro i
    refine List.Pairwise.cons ?_ (ih (i + 1))
    intro j hj
    have := posRange_lb n (i + 1) j hj
    omega

theorem nonNonePositionsFrom_lb (grads : List (Option Tensor)) :
    ∀ i j, j ∈ nonNonePositionsFrom i grads → i ≤ j := by
  induction grads with
  | nil => intro i j h; simp [nonNonePositionsFrom] at h
  | cons g rest ih =>
    intro i j h
    cases g with
    | none =>
      have := ih (i + 1) j h
      omega
    | some t =>
      simp only [nonNonePositionsFrom, List.mem_cons] at h
      rcases h with h | h
      · omega
      · have := ih (i + 1) j h; omega

theorem nonNonePositionsFrom_pairwise_lt (grads : List (Option Tensor)) :
    ∀ i, List.Pairwise (fun a b => a < b) (nonNonePositionsFrom i grads) := by
  induction grads with
  | nil => intro i; exact List.Pairwise.nil
  | cons g rest ih =>
    intro i
    cases g with
    | none => exact ih (i + 1)
    | some t =>
      refine List.Pairwise.cons ?_ (ih (i + 1))
      intro j hj
      have := nonNonePositionsFrom_lb rest (i + 1) j hj
      omega

theorem nonNonePositionsFrom_nodup (grads : List (Option Tensor)) (i : Nat) :
    (nonNonePositionsFrom i grads).Nodup :=
  (nonNonePositionsFrom_pairwise_lt grads i).imp (fun h => Nat.ne_of_lt h)

theorem posRange_nodup (n i : Nat) : (posRange i n).Nodup :=
  (posRange_pairwise_lt n i).imp (fun h => Nat.ne_of_lt h)

theorem nonNonePositionsFrom_length (grads : List (Option Tensor)) :
    ∀ i, (nonNonePositionsFrom i grads).length = (grads.filterMap id).length := by
  induction grads with
  | nil => intro i; rfl
  | cons g rest ih =>
    intro i
    cases g <;> simp [nonNonePositionsFrom, List.filterMap_cons, ih (i + 1)]

theorem nonNonePositionsFrom_map_some (ts : List Tensor) :
    ∀ i, nonNonePositionsFrom i (ts.map some) = posRange i ts.length := by
  induction ts with
  | nil => intro i; rfl
  | cons t ts ih => intro i; simp [nonNonePositionsFrom, posRange, ih (i + 1)]

theorem densifyList_positions (sad : Bool) (grads : List (Option Tensor)) :
    ∀ i, nonNonePositionsFrom i (densifyList sad grads) = nonNonePositionsFrom i grads := by
  cases sad with
  | false => intro i; rfl
  | true =>
    induction grads with
    | nil => intro i; rfl
    | cons g rest ih =>
      intro i
      cases g <;> simp_all [densifyList, nonNonePositionsFrom]

theorem densifyList_filterMap (sad : Bool) (grads : List (Option Tensor)) :
    (densifyList sad grads).filterMap id = (grads.filterMap id).map (densify sad) := by
  cases sad with
  | false =>
    have h : densify false = id := funext fun g => by simp [densify]
    simp [densifyList, h]
  | true =>
    induction grads with
    | nil => rfl
    | cons g rest ih =>
      cases g <;> simp_all [densifyList, densify, List.filterMap_cons]

theorem syncGrads_pushPullTfLoop (sad : Bool) (grads : List (Option Tensor)) :
    syncGrads (pushPullTfLoop sad grads).1 = (grads.filterMap id).map (densify sad) := by
  induction grads with
  | nil => rfl
  | cons g rest ih =>
    cases g <;> simp [pushPullTfLoop, syncGrads, densify, List.filterMap_cons, ih]

theorem zipStar4_ok (xs : List (Option AsyncTuple))
    (cols : List Tensor × List Nat × List Nat × List Nat)
    (h : zipStar4 xs = Except.ok cols) :
    xs.any (fun x => x.isNone) = false ∧ xs.filterMap id ≠ [] ∧
      cols = ((xs.filterMap id).map AsyncTuple.avg_grad,
              (xs.filterMap id).map AsyncTuple.grad_name,
              (xs.filterMap id).map AsyncTuple.handle,
              (xs.filterMap id).map AsyncTuple.ctx) := by
  unfold zipStar4 at h
  by_cases h1 : xs.any (fun x => x.isNone) = true
  · rw [if_pos h1] at h; cases h
  · rw [if_neg h1] at h
    by_cases h2 : (xs.filterMap id).isEmpty = true
    · rw [if_pos h2] at h; cases h
    · rw [if_neg h2] at h
      refine ⟨?_, ?_, ?_⟩
      · cases hx : xs.any (fun x => x.isNone) with
        | false => rfl
        | true => exact absurd hx h1
      · intro hnil
        exact h2 (by simp [hnil])
      · cases h; rfl

theorem xlaTuples_any_isNone (grads : List (Option Tensor)) :
    ∀ i, ((xlaTuples i grads).any (fun x => x.isNone)) = grads.any (fun g => g.isNone) := by
  induction grads with
  | nil => intro i; rfl
  | cons g rest ih => intro i; cases g <;> simp [xlaTuples, ih (i + 1)]

theorem eq_map_some_of_any_isNone_false (grads : List (Option Tensor))
    (h : grads.any (fun g => g.isNone) = false) :
    grads = (grads.filterMap id).map some := by
  induction grads with
  | nil => rfl
  | cons g rest ih =>
    cases g with
    | none => simp at h
    | some t =>
      simp only [List.any_cons, Option.isNone_some, Bool.false_or] at h
      simp only [List.filterMap_cons, id, List.map_cons, List.cons.injEq, true_and]
      exact ih h

theorem xlaTuples_map_some (ts : List Tensor) :
    ∀ i, xlaTuples i (ts.map some) = (tuplesOf i ts).map some := by
  induction ts with
  | nil => intro i; rfl
  | cons t ts ih => intro i; simp [xlaTuples, tuplesOf, ih (i + 1)]

theorem filterMap_id_map_some {α : Type} (l : List α) : (l.map some).filterMap id = l := by
  induction l with
  | nil => rfl
  | cons a l ih => simp [List.filterMap_cons, ih]

theorem tuplesOf_length (ts : List Tensor) : ∀ i, (tuplesOf i ts).length = ts.length := by
  induction ts with
  | nil => intro i; rfl
  | cons t ts ih => intro i; simp [tuplesOf, ih (i + 1)]

theorem tuplesOf_map_handle (ts : List Tensor) :
    ∀ i, (tuplesOf i ts).map AsyncTuple.handle = posRange i ts.length := by
  induction ts with
  | nil => intro i; rfl
  | cons t ts ih => intro i; simp [tuplesOf, posRange, push_pull_xla_handle_out_v2, ih (i + 1)]

theorem tuplesOf_map_name (ts : List Tensor) :
    ∀ i, (tuplesOf i ts).map AsyncTuple.grad_name = posRange i ts.length := by
  induction ts with
  | nil => intro i; rfl
  | cons t ts ih => intro i; simp [tuplesOf, posRange, push_pull_xla_handle_out_v2, ih (i + 1)]

theorem map_snd_zip_eq {α β : Type} :
    ∀ (a : List α) (b : List β), a.length = b.length → (a.zip b).map Prod.snd = b := by
  intro a
  induction a with
  | nil =>
    intro b hb
    cases b with
    | nil => rfl
    | cons y b => simp at hb
  | cons x a ih =>
    intro b hb
    cases b with
    | nil => simp at hb
    | cons y b => simp [List.zip_cons_cons, ih b (by simpa using hb)]

theorem push_pull_xla_body_error (cfg : Config) (grads : List (Option Tensor)) (e : PyError)
    (h : (push_pull_xla_body cfg grads).2 = Except.error e) :
    (push_pull_xla_body cfg grads).1 = xlaIssueCalls 1 (densifyList cfg.sparse_as_dense grads) := by
  unfold push_pull_xla_body at h ⊢
  cases heq : zipStar4 (xlaTuples 1 (densifyList cfg.sparse_as_dense grads)) with
  | error e2 => rfl
  | ok cols =>
    obtain ⟨avg, names, handles, ctxes⟩ := cols
    rw [heq] at h
    simp at h

theorem push_pull_xla_body_ok (cfg : Config) (grads : List (Option Tensor))
    (out : List (Option Tensor))
    (h : (push_pull_xla_body cfg grads).2 = Except.ok out) :
    ∃ ts : List Tensor, ts ≠ []
      ∧ densifyList cfg.sparse_as_dense grads = ts.map some
      ∧ (push_pull_xla_body cfg grads).1
          = xlaIssueCalls 1 (densifyList cfg.sparse_as_dense grads)
            ++ CollectiveCall.barrierCall (posRange 1 ts.length)
            :: (xlaBindCalls (posRange 1 ts.length) 1
                  (((tuplesOf 1 ts).map AsyncTuple.avg_grad).zip (posRange 1 ts.length))
                ++ ((xlaSyncedList (posRange 1 ts.length) 1
                      (((tuplesOf 1 ts).map AsyncTuple.avg_grad).zip (posRange 1 ts.length))).zip
                    ((tuplesOf 1 ts).map AsyncTuple.ctx)).map
                    (fun p => CollectiveCall.decompressCall p.1 p.2)) := by
  cases heq : zipStar4 (xlaTuples 1 (densifyList cfg.sparse_as_dense grads)) with
  | error e =>
    unfold push_pull_xla_body at h
    rw [heq] at h
    simp at h
  | ok cols =>
    obtain ⟨avg, names, handles, ctxes⟩ := cols
    obtain ⟨hany, hne, hcols⟩ := zipStar4_ok _ _ heq
    have hg : (densifyList cfg.sparse_as_dense grads).any (fun g => g.isNone) = false := by
      rw [← xlaTuples_any_isNone _ 1]; exact hany
    have hmap := eq_map_some_of_any_isNone_false _ hg
    refine ⟨(densifyList cfg.sparse_as_dense grads).filterMap id, ?_, hmap, ?_⟩
    · intro hnil
      apply hne
      have hdg : densifyList cfg.sparse_as_dense grads = [] := by
        rw [hmap, hnil]; rfl
      rw [hdg]
      rfl
    · have htup : xlaTuples 1 (densifyList cfg.sparse_as_dense grads)
          = (tuplesOf 1 ((densifyList cfg.sparse_as_dense grads).filterMap id)).map some := by
        conv_lhs => rw [hmap]
        rw [xlaTuples_map_some]
      have hfm : (xlaTuples 1 (densifyList cfg.sparse_as_dense grads)).filterMap id
          = tuplesOf 1 ((densifyList cfg.sparse_as_dense grads).filterMap id) := by
        rw [htup, filterMap_id_map_some]
      rw [hfm] at hcols
      simp only [Prod.mk.injEq] at hcols
      obtain ⟨havg, hnames, hhandles, hctxes⟩ := hcols
      subst havg hnames hhandles hctxes
      unfold push_pull_xla_body
      rw [heq]
      simp only [_my_barrier_handle_out, tuplesOf_map_name, tuplesOf_map_handle]

theorem dropWhile_append_all {α : Type} (p : α → Bool) :
    ∀ (a b : List α), (∀ c ∈ a, p c = true) → (a ++ b).dropWhile p = b.dropWhile p := by
  intro a
  induction a with
  | nil => intro b h; rfl
  | cons x a ih =>
    intro b h
    have hx : p x = true := h x (List.mem_cons_self _ _)
    simp [List.dropWhile_cons, hx, ih b (fun c hc => h c (List.mem_cons_of_mem _ hc))]

theorem push_pull_xla_size_gt (cfg : Config) (st : OptState) (grads : List (Option Tensor))
    (hsz : 1 < cfg.size) :
    _push_pull_xla cfg st grads
      = ({ aggregated_gradients := true }, push_pull_xla_body cfg grads) := by
  have hn : ¬ cfg.size ≤ 1 := by omega
  simp [_push_pull_xla, hn]

theorem push_pull_tf_size_gt (cfg : Config) (st : OptState) (grads : List (Option Tensor))
    (hsz : 1 < cfg.size) :
    _push_pull_tf cfg st grads
      = ({ aggregated_gradients := true }, pushPullTfLoop cfg.sparse_as_dense grads) := by
  simp [_push_pull_tf, hsz]

theorem body_asyncIdxs (cfg : Config) (grads : List (Option Tensor)) :
    asyncIdxs (push_pull_xla_body cfg grads).1 = nonNonePositionsFrom 1 grads := by
  unfold push_pull_xla_body
  cases heq : zipStar4 (xlaTuples 1 (densifyList cfg.sparse_as_dense grads)) with
  | error e =>
    rw [show asyncIdxs (xlaIssueCalls 1 (densifyList cfg.sparse_as_dense grads), Except.error e).1
          = nonNonePositionsFrom 1 (densifyList cfg.sparse_as_dense grads)
        from asyncIdxs_xlaIssueCalls _ 1]
    exact densifyList_positions _ _ 1
  | ok cols =>
    obtain ⟨avg, names, handles, ctxes⟩ := cols
    simp [asyncIdxs_append, asyncIdxs, asyncIdxs_xlaBindCalls, asyncIdxs_decompressMap,
          asyncIdxs_xlaIssueCalls, densifyList_positions]

theorem body_asyncGrads (cfg : Config) (grads : List (Option Tensor)) :
    asyncGrads (push_pull_xla_body cfg grads).1
      = (grads.filterMap id).map (densify cfg.sparse_as_dense) := by
  unfold push_pull_xla_body
  cases heq : zipStar4 (xlaTuples 1 (densifyList cfg.sparse_as_dense grads)) with
  | error e =>
    rw [show asyncGrads (xlaIssueCalls 1 (densifyList cfg.sparse_as_dense grads), Except.error e).1
          = (densifyList cfg.sparse_as_dense grads).filterMap id
        from asyncGrads_xlaIssueCalls _ 1]
    exact densifyList_filterMap _ _
  | ok cols =>
    obtain ⟨avg, names, handles, ctxes⟩ := cols
    simp [asyncGrads_append, asyncGrads, asyncGrads_xlaBindCalls, asyncGrads_decompressMap,
          asyncGrads_xlaIssueCalls, densifyList_filterMap]

theorem body_ok_projections (cfg : Config) (grads : List (Option Tensor))
    (out : List (Option Tensor)) (h : (push_pull_xla_body cfg grads).2 = Except.ok out) :
    bindIdxs (push_pull_xla_body cfg grads).1 = asyncIdxs (push_pull_xla_body cfg grads).1
    ∧ bindNames (push_pull_xla_body cfg grads).1 = asyncIdxs (push_pull_xla_body cfg grads).1
    ∧ barrierArgs (push_pull_xla_body cfg grads).1 = [asyncIdxs (push_pull_xla_body cfg grads).1]
    ∧ asyncIdxs ((push_pull_xla_body cfg grads).1.dropWhile (fun c => !(isBarrierCall c))) = [] := by
  obtain ⟨ts, hne, hmap, htr⟩ := push_pull_xla_body_ok cfg grads out h
  have hidx : asyncIdxs (push_pull_xla_body cfg grads).1 = posRange 1 ts.length := by
    rw [body_asyncIdxs, ← densifyList_positions cfg.sparse_as_dense grads 1, hmap,
        nonNonePositionsFrom_map_some]
  have hlen : (((tuplesOf 1 ts).map AsyncTuple.avg_grad).zip (posRange 1 ts.length)).length
      = ts.length := by
    simp [List.length_zip, tuplesOf_length, posRange_length]
  refine ⟨?_, ?_, ?_, ?_⟩
  · rw [hidx, htr]
    simp [bindIdxs_append, bindIdxs, bindIdxs_xlaIssueCalls, bindIdxs_xlaBindCalls,
          bindIdxs_decompressMap, hlen]
  · rw [hidx, htr]
    have hz : (((tuplesOf 1 ts).map AsyncTuple.avg_grad).zip (posRange 1 ts.length)).map Prod.snd
        = posRange 1 ts.length :=
      map_snd_zip_eq _ _ (by simp [tuplesOf_length, posRange_length])
    simp [bindNames_append, bindNames, bindNames_xlaIssueCalls, bindNames_xlaBindCalls,
          bindNames_decompressMap, hz]
  · rw [hidx, htr]
    simp [barrierArgs_append, barrierArgs, barrierArgs_xlaIssueCalls, barrierArgs_xlaBindCalls,
          barrierArgs_decompressMap]
  · rw [htr]
    rw [dropWhile_append_all _ _ _ (fun c hc => not_isBarrierCall_xlaIssueCalls _ 1 c hc)]
    rw [List.dropWhile_cons_of_neg (by simp [isBarrierCall])]
    simp [asyncIdxs, asyncIdxs_append, asyncIdxs_xlaBindCalls, asyncIdxs_decompressMap]

theorem body_error_projections (cfg : Config) (grads : List (Option Tensor))
    (e : PyError) (h : (push_pull_xla_body cfg grads).2 = Except.error e) :
    bindIdxs (push_pull_xla_body cfg grads).1 = []
    ∧ bindNames (push_pull_xla_body cfg grads).1 = []
    ∧ barrierArgs (push_pull_xla_body cfg grads).1 = [] := by
  rw [push_pull_xla_body_error cfg grads e h]
  exact ⟨bindIdxs_xlaIssueCalls _ 1, bindNames_xlaIssueCalls _ 1, barrierArgs_xlaIssueCalls _ 1⟩

theorem push_pull_xla_trace_size_gt (cfg : Config) (st : OptState)
    (grads : List (Option Tensor)) (hsz : 1 < cfg.size) :
    (_push_pull_xla cfg st grads).2.1 = (push_pull_xla_body cfg grads).1 := by
  rw [push_pull_xla_size_gt cfg st grads hsz]

theorem push_pull_xla_res_size_gt (cfg : Config) (st : OptState)
    (grads : List (Option Tensor)) (hsz : 1 < cfg.size) :
    (_push_pull_xla cfg st grads).2.2 = (push_pull_xla_body cfg grads).2 := by
  rw [push_pull_xla_size_gt cfg st grads hsz]

theorem push_pull_tf_trace_size_gt (cfg : Config) (st : OptState)
    (grads : List (Option Tensor)) (hsz : 1 < cfg.size) :
    (_push_pull_tf cfg st grads).2.1 = (pushPullTfLoop cfg.sparse_as_dense grads).1 := by
  rw [push_pull_tf_size_gt cfg st grads hsz]

theorem push_pull_tf_out_size_gt (cfg : Config) (st : OptState)
    (grads : List (Option Tensor)) (hsz : 1 < cfg.size) :
    (_push_pull_tf cfg st grads).2.2 = (pushPullTfLoop cfg.sparse_as_dense grads).2 := by
  rw [push_pull_tf_size_gt cfg st grads hsz]

/-- Claim C1, code-bug evidence: on the gradient list `[some tensor, None]`
with worker-group size 2, the direct-mode aggregator passes the `None`
placeholder through to output position 2, but the accelerated-mode aggregator
raises a `TypeError` at the `zip(*...)` transposition (a `None` element is
not iterable) instead of returning any output list, so the claimed
None-preservation invariant fails in accelerated mode. -/
theorem C1_none_divergence :
    (_push_pull_tf { size := 2, sparse_as_dense := false, enable_xla := false } init_state
        [some (Tensor.base 0 false), none]).2.2
      = [some (Tensor.pushPullResult (Tensor.base 0 false)), none]
    ∧ (_push_pull_xla { size := 2, sparse_as_dense := false, enable_xla := true } init_state
        [some (Tensor.base 0 false), none]).2.2
      = Except.error PyError.typeError :=
  ⟨rfl, rfl⟩

/-- Claim C5: with worker-group size at most 1, both aggregation paths return
the input gradient list unchanged and issue zero collective calls: the trace
is empty, so no push-pull, no barrier, no bind and no decompress happen. -/
theorem C5_size_one_noop (cfg : Config) (st : OptState) (grads : List (Option Tensor))
    (hsz : cfg.size ≤ 1) :
    _push_pull_tf cfg st grads = ({ aggregated_gradients := true }, [], grads)
    ∧ _push_pull_xla cfg st grads = ({ aggregated_gradients := true }, [], Except.ok grads) := by
  have hn : ¬ cfg.size > 1 := by omega
  constructor
  · simp [_push_pull_tf, hn]
  · simp [_push_pull_xla, hsz]

/-- Witness for C5 at worker-group size 1 on a concrete two-entry list. -/
theorem C5_size_one_noop_witness :
    (1 : Nat) ≤ 1
    ∧ (_push_pull_tf { size := 1, sparse_as_dense := true, enable_xla := false } init_state
          [some (Tensor.base 3 true), none]
        = ({ aggregated_gradients := true }, [], [some (Tensor.base 3 true), none])
      ∧ _push_pull_xla { size := 1, sparse_as_dense := true, enable_xla := false } init_state
          [some (Tensor.base 3 true), none]
        = ({ aggregated_gradients := true }, [],
           Except.ok [some (Tensor.base 3 true), none])) :=
  ⟨by decide, C5_size_one_noop { size := 1, sparse_as_dense := true, enable_xla := false }
    init_state [some (Tensor.base 3 true), none] (by decide)⟩

/-- Claim C9: the aggregation sentinel is written before any collective call
is issued, so an accelerated-mode run that raises still leaves the sentinel
set and a later update step is permitted; the direct path likewise sets the
sentinel unconditionally. -/
theorem C9_flag_set_despite_error (cfg : Config) (st : OptState)
    (grads : List (Option Tensor)) (e : PyError)
    (herr : (_push_pull_xla cfg st grads).2.2 = Except.error e) :
    ((_push_pull_xla cfg st grads).1).aggregated_gradients = true
    ∧ apply_gradients ((_push_pull_xla cfg st grads).1) = Except.ok ()
    ∧ ((_push_pull_tf cfg st grads).1).aggregated_gradients = true :=
  ⟨rfl, rfl, rfl⟩

/-- Witness for C9: a raising accelerated run (input `[None]`, size 2) leaves
the sentinel set and the update step enabled. -/
theorem C9_flag_set_despite_error_witness :
    ((_push_pull_xla { size := 2, sparse_as_dense := false, enable_xla := true } init_state
        [none]).2.2 = Except.error PyError.typeError)
    ∧ (((_push_pull_xla { size := 2, sparse_as_dense := false, enable_xla := true } init_state
          [none]).1).aggregated_gradients = true
      ∧ apply_gradients ((_push_pull_xla { size := 2, sparse_as_dense := false, enable_xla := true }
          init_state [none]).1) = Except.ok ()
      ∧ ((_push_pull_tf { size := 2, sparse_as_dense := false, enable_xla := true } init_state
          [none]).1).aggregated_gradients = true) :=
  ⟨rfl, C9_flag_set_despite_error { size := 2, sparse_as_dense := false, enable_xla := true }
    init_state [none] PyError.typeError rfl⟩

/-- Claim C10: on the empty gradient list with worker-group size above 1 the
direct path returns the empty list having issued no calls, while the
accelerated path raises an IndexError from indexing the transposition of the
empty tuple list instead of returning an empty list. -/
theorem C10_empty_input (cfg : Config) (st : OptState) (hsz : 1 < cfg.size) :
    (_push_pull_tf cfg st []).2.2 = []
    ∧ (_push_pull_tf cfg st []).2.1 = []
    ∧ (_push_pull_xla cfg st []).2.2 = Except.error PyError.indexError := by
  have hdg : densifyList cfg.sparse_as_dense [] = [] := by
    cases hs : cfg.sparse_as_dense <;> simp [densifyList]
  refine ⟨?_, ?_, ?_⟩
  · rw [push_pull_tf_out_size_gt cfg st [] hsz]; rfl
  · rw [push_pull_tf_trace_size_gt cfg st [] hsz]; rfl
  · rw [push_pull_xla_res_size_gt cfg st [] hsz]
    unfold push_pull_xla_body
    rw [hdg]
    rfl

/-- Witness for C10 at worker-group size 2. -/
theorem C10_empty_input_witness :
    (1 : Nat) < 2
    ∧ ((_push_pull_tf { size := 2, sparse_as_dense := false, enable_xla := false } init_state []).2.2 = []
      ∧ (_push_pull_tf { size := 2, sparse_as_dense := false, enable_xla := false } init_state []).2.1 = []
      ∧ (_push_pull_xla { size := 2, sparse_as_dense := false, enable_xla := false } init_state []).2.2
          = Except.error PyError.indexError) :=
  ⟨by decide, C10_empty_input { size := 2, sparse_as_dense := false, enable_xla := false }
    init_state (by decide)⟩

/-- Claim C2: in accelerated mode with worker-group size above 1, every
asynchronous push-pull receives the 1-based position of its gradient within
the original full gradient list (`None` positions are counted, so indices are
never renumbered over the filtered list), these indices are pairwise
distinct, and the bind-to-barrier step passes exactly the indices and
correlation names used at issue time whenever it runs at all (on a raising
run no bind is issued), so no two gradients of one request share a
correlation name or index. -/
theorem C2_issue_and_bind_indices (cfg : Config) (st : OptState)
    (grads : List (Option Tensor)) (hsz : 1 < cfg.size) :
    asyncIdxs (_push_pull_xla cfg st grads).2.1 = nonNonePositionsFrom 1 grads
    ∧ (asyncIdxs (_push_pull_xla cfg st grads).2.1).Nodup
    ∧ bindIdxs (_push_pull_xla cfg st grads).2.1
        = (if isOkResult (_push_pull_xla cfg st grads).2.2 = true
           then asyncIdxs (_push_pull_xla cfg st grads).2.1 else [])
    ∧ bindNames (_push_pull_xla cfg st grads).2.1
        = (if isOkResult (_push_pull_xla cfg st grads).2.2 = true
           then asyncIdxs (_push_pull_xla cfg st grads).2.1 else [])
    ∧ (bindNames (_push_pull_xla cfg st grads).2.1).Nodup := by
  rw [push_pull_xla_trace_size_gt cfg st grads hsz, push_pull_xla_res_size_gt cfg st grads hsz]
  cases hres : (push_pull_xla_body cfg grads).2 with
  | error e =>
    obtain ⟨hb1, hb2, hb3⟩ := body_error_projections cfg grads e hres
    refine ⟨body_asyncIdxs cfg grads, ?_, ?_, ?_, ?_⟩
    · rw [body_asyncIdxs]; exact nonNonePositionsFrom_nodup grads 1
    · rw [hb1]; simp [isOkResult]
    · rw [hb2]; simp [isOkResult]
    · rw [hb2]; exact List.nodup_nil
  | ok out =>
    obtain ⟨hb1, hb2, hb3, hb4⟩ := body_ok_projections cfg grads out hres
    refine ⟨body_asyncIdxs cfg grads, ?_, ?_, ?_, ?_⟩
    · rw [body_asyncIdxs]; exact nonNonePositionsFrom_nodup grads 1
    · rw [hb1]; simp [isOkResult]
    · rw [hb2]; simp [isOkResult]
    · rw [hb2, body_asyncIdxs]; exact nonNonePositionsFrom_nodup grads 1

/-- Witness for C2: gradients at original positions 1 and 3 (position 2 is
None), worker-group size 2; the async indices are [1, 3], not [1, 2], and no
bind is issued because the transposition raises on the None entry. -/
theorem C2_issue_and_bind_indices_witness :
    (1 : Nat) < 2
    ∧ (asyncIdxs (_push_pull_xla { size := 2, sparse_as_dense := false, enable_xla := true }
          init_state [some (Tensor.base 0 false), none, some (Tensor.base 1 false)]).2.1
        = nonNonePositionsFrom 1 [some (Tensor.base 0 false), none, some (Tensor.base 1 false)]
      ∧ (asyncIdxs (_push_pull_xla { size := 2, sparse_as_dense := false, enable_xla := true }
          init_state [some (Tensor.base 0 false), none, some (Tensor.base 1 false)]).2.1).Nodup
      ∧ bindIdxs (_push_pull_xla { size := 2, sparse_as_dense := false, enable_xla := true }
          init_state [some (Tensor.base 0 false), none, some (Tensor.base 1 false)]).2.1
          = (if isOkResult (_push_pull_xla { size := 2, sparse_as_dense := false, enable_xla := true }
                init_state [some (Tensor.base 0 false), none, some (Tensor.base 1 false)]).2.2 = true
             then asyncIdxs (_push_pull_xla { size := 2, sparse_as_dense := false, enable_xla := true }
                init_state [some (Tensor.base 0 false), none, some (Tensor.base 1 false)]).2.1 else [])
      ∧ bindNames (_push_pull_xla { size := 2, sparse_as_dense := false, enable_xla := true }
          init_state [some (Tensor.base 0 false), none, some (Tensor.base 1 false)]).2.1
          = (if isOkResult (_push_pull_xla { size := 2, sparse_as_dense := false, enable_xla := true }
                init_state [some (Tensor.base 0 false), none, some (Tensor.base 1 false)]).2.2 = true
             then asyncIdxs (_push_pull_xla { size := 2, sparse_as_dense := false, enable_xla := true }
                init_state [some (Tensor.base 0 false), none, some (Tensor.base 1 false)]).2.1 else [])
      ∧ (bindNames (_push_pull_xla { size := 2, sparse_as_dense := false, enable_xla := true }
          init_state [some (Tensor.base 0 false), none, some (Tensor.base 1 false)]).2.1).Nodup) :=
  ⟨by decide, C2_issue_and_bind_indices { size := 2, sparse_as_dense := false, enable_xla := true }
    init_state [some (Tensor.base 0 false), none, some (Tensor.base 1 false)] (by decide)⟩

/-- Claim C3: in accelerated mode with worker-group size above 1, a normally
returning request invokes the barrier exactly once, the handle group it
receives is exactly the handles of the async ops issued for the non-None
gradients (so its size equals the non-None count), and no asynchronous
push-pull is issued at or after the barrier call - every async op of the
request is issued before it. -/
theorem C3_single_barrier_after_all_asyncs (cfg : Config) (st : OptState)
    (grads : List (Option Tensor)) (out : List (Option Tensor)) (hsz : 1 < cfg.size)
    (hok : (_push_pull_xla cfg st grads).2.2 = Except.ok out) :
    barrierArgs (_push_pull_xla cfg st grads).2.1
      = [asyncIdxs (_push_pull_xla cfg st grads).2.1]
    ∧ (asyncIdxs (_push_pull_xla cfg st grads).2.1).length = (grads.filterMap id).length
    ∧ asyncIdxs ((_push_pull_xla cfg st grads).2.1.dropWhile (fun c => !(isBarrierCall c))) = [] := by
  rw [push_pull_xla_res_size_gt cfg st grads hsz] at hok
  rw [push_pull_xla_trace_size_gt cfg st grads hsz]
  obtain ⟨hb1, hb2, hb3, hb4⟩ := body_ok_projections cfg grads out hok
  refine ⟨hb3, ?_, hb4⟩
  rw [body_asyncIdxs]
  exact nonNonePositionsFrom_length grads 1

/-- Witness for C3 on the singleton list [some tensor] at worker-group
size 2, whose run returns normally. -/
theorem C3_single_barrier_after_all_asyncs_witness :
    (1 : Nat) < 2
    ∧ (_push_pull_xla { size := 2, sparse_as_dense := false, enable_xla := true } init_state
        [some (Tensor.base 0 false)]).2.2
      = Except.ok [some (Tensor.decompressed
          (Tensor.syncedResult (Tensor.asyncResult (Tensor.base 0 false) 1) [1] 1 1) 1)]
    ∧ (barrierArgs (_push_pull_xla { size := 2, sparse_as_dense := false, enable_xla := true }
          init_state [some (Tensor.base 0 false)]).2.1
        = [asyncIdxs (_push_pull_xla { size := 2, sparse_as_dense := false, enable_xla := true }
            init_state [some (Tensor.base 0 false)]).2.1]
      ∧ (asyncIdxs (_push_pull_xla { size := 2, sparse_as_dense := false, enable_xla := true }
          init_state [some (Tensor.base 0 false)]).2.1).length
          = ([some (Tensor.base 0 false)].filterMap id).length
      ∧ asyncIdxs ((_push_pull_xla { size := 2, sparse_as_dense := false, enable_xla := true }
          init_state [some (Tensor.base 0 false)]).2.1.dropWhile
            (fun c => !(isBarrierCall c))) = []) :=
  ⟨by decide, rfl,
   C3_single_barrier_after_all_asyncs { size := 2, sparse_as_dense := false, enable_xla := true }
     init_state [some (Tensor.base 0 false)]
     [some (Tensor.decompressed
        (Tensor.syncedResult (Tensor.asyncResult (Tensor.base 0 false) 1) [1] 1 1) 1)]
     (by decide) rfl⟩

/-- Claim C4: with worker-group size above 1, collective calls are issued in
input-list order, one per non-None gradient: the tensors handed to direct
synchronous push-pulls and to accelerated asynchronous push-pulls are exactly
the (optionally densified) non-None gradients in list order, the async
indices are the original positions in strictly increasing order, and the
issued call sequence depends only on the gradient list and configuration,
not on the wrapper state. -/
theorem C4_deterministic_issue_order (cfg : Config) (st st2 : OptState)
    (grads : List (Option Tensor)) (hsz : 1 < cfg.size) :
    syncGrads (_push_pull_tf cfg st grads).2.1
      = (grads.filterMap id).map (densify cfg.sparse_as_dense)
    ∧ asyncGrads (_push_pull_xla cfg st grads).2.1
      = (grads.filterMap id).map (densify cfg.sparse_as_dense)
    ∧ asyncIdxs (_push_pull_xla cfg st grads).2.1 = nonNonePositionsFrom 1 grads
    ∧ List.Pairwise (fun a b => a < b) (nonNonePositionsFrom 1 grads)
    ∧ (_push_pull_tf cfg st2 grads).2.1 = (_push_pull_tf cfg st grads).2.1
    ∧ (_push_pull_xla cfg st2 grads).2.1 = (_push_pull_xla cfg st grads).2.1 := by
  refine ⟨?_, ?_, ?_, nonNonePositionsFrom_pairwise_lt grads 1, rfl, rfl⟩
  · rw [push_pull_tf_trace_size_gt cfg st grads hsz]
    exact syncGrads_pushPullTfLoop _ _
  · rw [push_pull_xla_trace_size_gt cfg st grads hsz]
    exact body_asyncGrads cfg grads
  · rw [push_pull_xla_trace_size_gt cfg st grads hsz]
    exact body_asyncIdxs cfg grads

/-- Witness for C4 on [some t0, None, some t1] at worker-group size 2, with
two distinct wrapper states producing the same call sequence. -/
theorem C4_deterministic_issue_order_witness :
    (1 : Nat) < 2
    ∧ (syncGrads (_push_pull_tf { size := 2, sparse_as_dense := false, enable_xla := false }
          { aggregated_gradients := true } [some (Tensor.base 0 false), none, some (Tensor.base 1 true)]).2.1
        = ([some (Tensor.base 0 false), none, some (Tensor.base 1 true)].filterMap id).map (densify false)
      ∧ asyncGrads (_push_pull_xla { size := 2, sparse_as_dense := false, enable_xla := false }
          { aggregated_gradients := true } [some (Tensor.base 0 false), none, some (Tensor.base 1 true)]).2.1
        = ([some (Tensor.base 0 false), none, some (Tensor.base 1 true)].filterMap id).map (densify false)
      ∧ asyncIdxs (_push_pull_xla { size := 2, sparse_as_dense := false, enable_xla := false }
          { aggregated_gradients := true } [some (Tensor.base 0 false), none, some (Tensor.base 1 true)]).2.1
        = nonNonePositionsFrom 1 [some (Tensor.base 0 false), none, some (Tensor.base 1 true)]
      ∧ List.Pairwise (fun a b => a < b)
          (nonNonePositionsFrom 1 [some (Tensor.base 0 false), none, some (Tensor.base 1 true)])
      ∧ (_push_pull_tf { size := 2, sparse_as_dense := false, enable_xla := false } init_state
          [some (Tensor.base 0 false), none, some (Tensor.base 1 true)]).2.1
        = (_push_pull_tf { size := 2, sparse_as_dense := false, enable_xla := false }
          { aggregated_gradients := true } [some (Tensor.base 0 false), none, some (Tensor.base 1 true)]).2.1
      ∧ (_push_pull_xla { size := 2, sparse_as_dense := false, enable_xla := false } init_state
          [some (Tensor.base 0 false), none, some (Tensor.base 1 true)]).2.1
        = (_push_pull_xla { size := 2, sparse_as_dense := false, enable_xla := false }
          { aggregated_gradients := true } [some (Tensor.base 0 false), none, some (Tensor.base 1 true)]).2.1) :=
  ⟨by decide, C4_deterministic_issue_order { size := 2, sparse_as_dense := false, enable_xla := false }
    { aggregated_gradients := true } init_state
    [some (Tensor.base 0 false), none, some (Tensor.base 1 true)] (by decide)⟩

/-- Claim C8: with worker-group size above 1, in both modes each non-None
gradient is handed to its collective push-pull converted to dense exactly
when the sparse-as-dense flag is set and the gradient is in indexed-slices
form; otherwise it is handed over unconverted. -/
theorem C8_sparse_as_dense_conversion (cfg : Config) (st : OptState)
    (grads : List (Option Tensor)) (hsz : 1 < cfg.size) :
    syncGrads (_push_pull_tf cfg st grads).2.1
      = (grads.filterMap id).map
          (fun g => if cfg.sparse_as_dense && g.isIndexedSlices then convert_to_tensor g else g)
    ∧ asyncGrads (_push_pull_xla cfg st grads).2.1
      = (grads.filterMap id).map
          (fun g => if cfg.sparse_as_dense && g.isIndexedSlices then convert_to_tensor g else g) := by
  have hd : (fun g => if cfg.sparse_as_dense && g.isIndexedSlices then convert_to_tensor g else g)
      = densify cfg.sparse_as_dense := rfl
  rw [hd]
  refine ⟨?_, ?_⟩
  · rw [push_pull_tf_trace_size_gt cfg st grads hsz]
    exact syncGrads_pushPullTfLoop _ _
  · rw [push_pull_xla_trace_size_gt cfg st grads hsz]
    exact body_asyncGrads cfg grads

/-- Witness for C8 at worker-group size 2 with the flag set, on one sparse
and one dense gradient. -/
theorem C8_sparse_as_dense_conversion_witness :
    (1 : Nat) < 2
    ∧ (syncGrads (_push_pull_tf { size := 2, sparse_as_dense := true, enable_xla := false }
          init_state [some (Tensor.base 0 true), some (Tensor.base 1 false)]).2.1
        = ([some (Tensor.base 0 true), some (Tensor.base 1 false)].filterMap id).map
            (fun g => if true && g.isIndexedSlices then convert_to_tensor g else g)
      ∧ asyncGrads (_push_pull_xla { size := 2, sparse_as_dense := true, enable_xla := false }
          init_state [some (Tensor.base 0 true), some (Tensor.base 1 false)]).2.1
        = ([some (Tensor.base 0 true), some (Tensor.base 1 false)].filterMap id).map
            (fun g => if true && g.isIndexedSlices then convert_to_tensor g else g)) :=
  ⟨by decide, C8_sparse_as_dense_conversion { size := 2, sparse_as_dense := true, enable_xla := false }
    init_state [some (Tensor.base 0 true), some (Tensor.base 1 false)] (by decide)⟩

/-- Claim C6: the update step raises the configuration error (with its
descriptive message naming the missing calls) exactly when the aggregation
sentinel is unset; a freshly constructed wrapper therefore fails, and after
any aggregation call - get_gradients or _aggregate_gradients, in either mode
and at any worker-group size - it delegates to the underlying update step. -/
theorem C6_update_step_guard (cfg : Config) (st : OptState)
    (grads : List (Option Tensor)) (gvs : List (Option Tensor × Nat)) :
    apply_gradients init_state = Except.error apply_gradients_error_msg
    ∧ (apply_gradients st = Except.error apply_gradients_error_msg
        ↔ st.aggregated_gradients = false)
    ∧ apply_gradients (get_gradients cfg st grads).1 = Except.ok ()
    ∧ apply_gradients (_aggregate_gradients cfg st gvs).1 = Except.ok () := by
  have hflag : ∀ g2 : List (Option Tensor),
      (push_pull_dispatch cfg st g2).1 = { aggregated_gradients := true } := by
    intro g2
    cases hx : cfg.enable_xla <;>
      simp [push_pull_dispatch, hx, _push_pull_tf, _push_pull_xla]
  refine ⟨rfl, ?_, ?_, ?_⟩
  · cases hb : st.aggregated_gradients <;> simp [apply_gradients, hb]
  · rw [get_gradients, hflag]; rfl
  · rw [_aggregate_gradients, hflag]; rfl

/-- Witness for C6: a fresh wrapper fails the update step; after one
aggregation call on a concrete list it succeeds. -/
theorem C6_update_step_guard_witness :
    apply_gradients init_state = Except.error apply_gradients_error_msg
    ∧ (apply_gradients init_state = Except.error apply_gradients_error_msg
        ↔ init_state.aggregated_gradients = false)
    ∧ apply_gradients (get_gradients { size := 2, sparse_as_dense := false, enable_xla := false }
        init_state [some (Tensor.base 0 false)]).1 = Except.ok ()
    ∧ apply_gradients (_aggregate_gradients { size := 2, sparse_as_dense := false, enable_xla := false }
        init_state [(some (Tensor.base 0 false), 0)]).1 = Except.ok () :=
  C6_update_step_guard { size := 2, sparse_as_dense := false, enable_xla := false }
    init_state [some (Tensor.base 0 false)] [(some (Tensor.base 0 false), 0)]

/-- Claim C7: the aggregation sentinel is false at construction, every
invocation of either aggregation path (through either entry point, including
the worker-group-size-1 fast path) sets it to true, and no wrapper operation
ever resets it: the post-state sentinel always absorbs the pre-state one. -/
theorem C7_sentinel_lifetime (cfg : Config) (st : OptState) (op : WrapperOp)
    (grads : List (Option Tensor)) :
    init_state.aggregated_gradients = false
    ∧ (push_pull_dispatch cfg st grads).1.aggregated_gradients = true
    ∧ ((_push_pull_tf cfg st grads).1).aggregated_gradients = true
    ∧ ((_push_pull_xla cfg st grads).1).aggregated_gradients = true
    ∧ (stepState cfg st op).aggregated_gradients
        = (st.aggregated_gradients || (stepState cfg st op).aggregated_gradients) := by
  have hflag : ∀ st2 g2, (push_pull_dispatch cfg st2 g2).1 = { aggregated_gradients := true } := by
    intro st2 g2
    cases hx : cfg.enable_xla <;>
      simp [push_pull_dispatch, hx, _push_pull_tf, _push_pull_xla]
  refine ⟨rfl, by rw [hflag], rfl, rfl, ?_⟩
  cases op with
  | applyGradientsOp =>
    exact (Bool.or_self _).symm
  | getGradientsOp gs =>
    have h : (stepState cfg st (WrapperOp.getGradientsOp gs)).aggregated_gradients = true := by
      rw [stepState, get_gradients, hflag]
    rw [h, Bool.or_true]
  | aggregateGradientsOp gvs =>
    have h : (stepState cfg st (WrapperOp.aggregateGradientsOp gvs)).aggregated_gradients = true := by
      rw [stepState, _aggregate_gradients, hflag]
    rw [h, Bool.or_true]

/-- Witness for C7 at a concrete configuration, state and operation, using
the size-1 fast path of the accelerated mode. -/
theorem C7_sentinel_lifetime_witness :
    init_state.aggregated_gradients = false
    ∧ (push_pull_dispatch { size := 1, sparse_as_dense := false, enable_xla := true }
        init_state []).1.aggregated_gradients = true
    ∧ ((_push_pull_tf { size := 1, sparse_as_dense := false, enable_xla := true }
        init_state []).1).aggregated_gradients = true
    ∧ ((_push_pull_xla { size := 1, sparse_as_dense := false, enable_xla := true }
        init_state []).1).aggregated_gradients = true
    ∧ (stepState { size := 1, sparse_as_dense := false, enable_xla := true }
          init_state (WrapperOp.getGradientsOp [])).aggregated_gradients
        = (init_state.aggregated_gradients
            || (stepState { size := 1, sparse_as_dense := false, enable_xla := true }
                init_state (WrapperOp.getGradientsOp [])).aggregated_gradients) :=
  C7_sentinel_lifetime { size := 1, sparse_as_dense := false, enable_xla := true }
    init_state (WrapperOp.getGradientsOp []) []

end BytePSKeras
